import Mathlib

/-
Verification development for the two-pane Coordinator/Analyst chat
application in `src/app.py`.

The embedding models the Streamlit session state (`main_chat_history`,
`analyst_chat_history`, `agent_status`, `data_transfer`) as an explicit
record `AppState`, and each event handler of the script as the state
transition its EXECUTED prefix performs.  The decisive control-flow fact
is `st.rerun()` at line 71 of `generate_agent_response`: in Streamlit,
`st.rerun()` raises a `RerunException` that halts the current script run
immediately, and on the automatic rerun `st.chat_input` (line 171)
returns `None` (a submission is delivered for exactly one run), so the
handler never resumes.  Consequently every call of
`generate_agent_response` performs only lines 69-71 — set the status to
`Working` and halt — and lines 73-110 (the Gemini call, the delegation
check at line 97, both `except` branches) are dead code; the submit
handler performs only line 174 plus that prefix (the reply append at
line 190 and the packet store at lines 193-198 are unreachable); the
hand-off handler, were a packet ever pending, would perform lines
214-231 and halt inside the Analyst call (lines 237-246 are
unreachable).  Session-state mutations made before the halt persist
across the rerun, so each handler transition below is exactly the
mutations up to the halt.  Startup configuration (the API key gate at
lines 120-135) is assumed satisfied.
-/

namespace App

/-- Chat role of a message dict (`"user"` / `"assistant"` in app.py). -/
inductive Role
  | user
  | assistant
deriving DecidableEq, Repr

/-- One message dict of a chat history: `{"role": .., "content": .., "avatar": ..}`. -/
structure Turn where
  role : Role
  content : String
  avatar : String
deriving DecidableEq, Repr

/-- Agent status strings used in `st.session_state.agent_status`. -/
inductive Status
  | Available
  | Working
  | Delegated
  | Error
deriving DecidableEq, Repr

/-- The two keys of the `AGENT_PROFILES` / `agent_status` dicts. -/
inductive AgentKey
  | Coordinator
  | Analyst
deriving DecidableEq, Repr

/-- The dict placed in `st.session_state.data_transfer` (line 195):
`{"task": ..., "prompt": ...}`. -/
structure HandoffPacket where
  task : String
  prompt : String
deriving DecidableEq, Repr

/-- The mutable Streamlit session state of app.py. -/
structure AppState where
  main_chat_history : List Turn
  analyst_chat_history : List Turn
  coordinator_status : Status
  analyst_status : Status
  data_transfer : Option HandoffPacket
deriving DecidableEq, Repr

def USER_AVATAR : String := "👤"

def ASSISTANT_AVATAR : String := "🤖"

/-- `init_session_state` (lines 41-63): empty histories, both agents
`Available`, no pending transfer. -/
def init_session_state : AppState :=
  { main_chat_history := []
    analyst_chat_history := []
    coordinator_status := Status.Available
    analyst_status := Status.Available
    data_transfer := none }

/-- Python `str.lower()` restricted to the per-character mapping
(`Char.toLower` is the ASCII case fold, which is all the keyword test
needs). -/
def lowerStr (s : String) : String :=
  String.mk (s.data.map Char.toLower)

/-- Python substring containment (`needle in haystack`) on `List Char`. -/
def containsSubstrAux (needle : List Char) : List Char → Bool
  | [] => needle.isEmpty
  | c :: rest => needle.isPrefixOf (c :: rest) || containsSubstrAux needle rest

/-- Python substring containment on `String`. -/
def containsSubstr (needle haystack : String) : Bool :=
  containsSubstrAux needle.data haystack.data

/-- The delegation keyword test of line 97:
`"data science" in prompt_text.lower()`.  (A pure expression; in the
running program it is dead code, but its semantics as a predicate are
well defined.) -/
def delegationMatch (prompt_text : String) : Bool :=
  containsSubstr "data science" (lowerStr prompt_text)

/-- The spec operation `maybe_delegate`: the keyword test of line 97
combined with the packet literal of line 195, as a pure function of the
last user text. -/
def maybe_delegate (last_user_text : String) : Option HandoffPacket :=
  if delegationMatch last_user_text = true then
    some { task := "Analyze Data Science Request", prompt := last_user_text }
  else
    none

/-- The prompt string built for the Analyst at line 216 (this line does
execute when a packet is pending). -/
def analyst_prompt_of (task_info : HandoffPacket) : String :=
  "TASK: " ++ task_info.task ++ ". INPUT: " ++ task_info.prompt

/-- The user `Turn` appended by the submit handler (line 174). -/
def userTurn (p : String) : Turn :=
  { role := Role.user, content := p, avatar := USER_AVATAR }

/-- The delegated-task `Turn` appended to the Analyst history (line 223,
with the Coordinator avatar). -/
def delegatedTaskTurn (ti : HandoffPacket) : Turn :=
  { role := Role.user,
    content := "Delegated Task:\n\n`" ++ ti.prompt ++ "`",
    avatar := ASSISTANT_AVATAR }

/-- Write one `agent_status` dict entry. -/
def setStatus (s : AppState) (k : AgentKey) (v : Status) : AppState :=
  match k with
  | AgentKey.Coordinator => { s with coordinator_status := v }
  | AgentKey.Analyst => { s with analyst_status := v }

/-- `generate_agent_response` as executed (lines 66-71): the status of
the agent is set to `Working` (line 70) and `st.rerun()` (line 71)
halts the script run; the `try` block at line 87 is never reached, so
no backing call is made and no reply text is ever produced.  The state
returned is the state at the halt. -/
def generate_agent_response (agent_key : AgentKey) (s : AppState) : AppState :=
  setStatus s agent_key Status.Working

/-- The submit handler of the left (Coordinator) column as executed
(lines 171-181): append the user message (line 174) and enter
`generate_agent_response`, which halts at line 71.  The reply append
(line 190) and the delegation check / packet store (lines 193-198) are
unreachable. -/
def submit_handler (s : AppState) (main_prompt : String) : AppState :=
  let s1 : AppState := { s with main_chat_history :=
    s.main_chat_history ++ [{ role := Role.user, content := main_prompt, avatar := USER_AVATAR }] }
  generate_agent_response AgentKey.Coordinator s1

/-- The hand-off handler of the right (Analyst) column as executed
(lines 213-231): when a packet is pending, read it (lines 215-217),
clear the slot (line 220), append the delegated-task message (line 223),
and enter `generate_agent_response` for the Analyst (line 231), which
halts at line 71.  The reply append, the mirror into the Coordinator
history and the `Available` reset (lines 237-246) are unreachable. -/
def handoff_handler (s : AppState) : AppState :=
  match s.data_transfer with
  | none => s
  | some task_info =>
      let s1 : AppState := { s with data_transfer := none }
      let s2 : AppState := { s1 with analyst_chat_history := s1.analyst_chat_history ++
        [{ role := Role.user,
           content := "Delegated Task:\n\n`" ++ task_info.prompt ++ "`",
           avatar := ASSISTANT_AVATAR }] }
      generate_agent_response AgentKey.Analyst s2

/-- The observable transition of one submission: the submitting run
halts inside the submit handler; the automatic rerun executes the right
column on the (unchanged) `data_transfer`, which itself halts if a
packet was pending.  Composing the two executed prefixes gives the
quiescent state the session reaches after a submission. -/
def script_step (s : AppState) (main_prompt : String) : AppState :=
  handoff_handler (submit_handler s main_prompt)

/-- Run a sequence of submissions. -/
def run (s : AppState) : List String → AppState
  | [] => s
  | p :: rest => run (script_step s p) rest

/-- Hypothetical state with a pending packet (no such state is reachable
from `init_session_state`, since line 195 never executes; used to
evaluate the hand-off handler in isolation). -/
def samplePendingState : AppState :=
  { init_session_state with
      coordinator_status := Status.Delegated,
      data_transfer := some ⟨"Analyze Data Science Request", "What is data science"⟩ }

/-! ### Helper lemmas -/

/-- Full characterization of the executed submit handler: the user turn
is appended, the Coordinator is left at `Working`, and nothing else
changes — in particular no assistant turn is appended and
`data_transfer` is not written. -/
theorem submit_handler_spec (s : AppState) (p : String) :
    (submit_handler s p).main_chat_history = s.main_chat_history ++ [userTurn p]
    ∧ (submit_handler s p).analyst_chat_history = s.analyst_chat_history
    ∧ (submit_handler s p).analyst_status = s.analyst_status
    ∧ (submit_handler s p).coordinator_status = Status.Working
    ∧ (submit_handler s p).data_transfer = s.data_transfer := by
  refine ⟨rfl, rfl, rfl, rfl, rfl⟩

/-- The hand-off handler does nothing when no packet is pending. -/
theorem handoff_handler_none (s : AppState) (h : s.data_transfer = none) :
    handoff_handler s = s := by
  simp [handoff_handler, h]

/-- Full characterization of the executed hand-off handler on a pending
packet: the slot is cleared, exactly the delegated-task turn is
appended, the Analyst is left at `Working`, and the run halts before any
reply, mirror, or Coordinator reset. -/
theorem handoff_handler_spec (s : AppState) (ti : HandoffPacket)
    (h : s.data_transfer = some ti) :
    (handoff_handler s).analyst_chat_history =
      s.analyst_chat_history ++ [delegatedTaskTurn ti]
    ∧ (handoff_handler s).main_chat_history = s.main_chat_history
    ∧ (handoff_handler s).coordinator_status = s.coordinator_status
    ∧ (handoff_handler s).analyst_status = Status.Working
    ∧ (handoff_handler s).data_transfer = none := by
  simp [handoff_handler, h, generate_agent_response, setStatus, delegatedTaskTurn]

/-- Characterization of a run of submissions from a packet-free state:
only user turns accumulate, the Analyst side is untouched, no packet is
ever stored, and the Coordinator is `Working` after any submission. -/
theorem run_spec (prompts : List String) :
    ∀ s : AppState, s.data_transfer = none →
      (run s prompts).main_chat_history = s.main_chat_history ++ prompts.map userTurn
      ∧ (run s prompts).analyst_chat_history = s.analyst_chat_history
      ∧ (run s prompts).analyst_status = s.analyst_status
      ∧ (run s prompts).data_transfer = none
      ∧ (run s prompts).coordinator_status =
          (if prompts = [] then s.coordinator_status else Status.Working) := by
  induction prompts with
  | nil => intro s h; simp [run, h]
  | cons p rest ih =>
      intro s h
      obtain ⟨hm, ha, has, hcs, hdt⟩ := submit_handler_spec s p
      have hsub : (submit_handler s p).data_transfer = none := by rw [hdt, h]
      have hstep : script_step s p = submit_handler s p := by
        simp [script_step, handoff_handler_none _ hsub]
      obtain ⟨h1, h2, h3, h4, h5⟩ := ih (submit_handler s p) hsub
      refine ⟨?_, ?_, ?_, ?_, ?_⟩
      · show (run (script_step s p) rest).main_chat_history = _
        rw [hstep, h1, hm]
        simp
      · show (run (script_step s p) rest).analyst_chat_history = _
        rw [hstep, h2, ha]
      · show (run (script_step s p) rest).analyst_status = _
        rw [hstep, h3, has]
      · show (run (script_step s p) rest).data_transfer = none
        rw [hstep, h4]
      · show (run (script_step s p) rest).coordinator_status = _
        rw [hstep, h5, hcs]
        simp

/-- A list of user turns contains no assistant turn. -/
theorem map_userTurn_no_assistant (l : List String) :
    (l.map userTurn).filter (fun m => decide (m.role = Role.assistant)) = [] := by
  induction l with
  | nil => rfl
  | cons p rest ih => simp [userTurn, ih]

/-! ### String lemmas -/

theorem data_append (a b : String) : (a ++ b).data = a.data ++ b.data := by
  cases a; cases b; rfl

theorem isPrefixOf_append_right (n : List Char) :
    ∀ l m : List Char, n.isPrefixOf l = true → n.isPrefixOf (l ++ m) = true := by
  induction n with
  | nil => intro l m _; simp [List.isPrefixOf]
  | cons c cs ih =>
      intro l m h
      cases l with
      | nil => simp [List.isPrefixOf] at h
      | cons d ds =>
          simp only [List.cons_append, List.isPrefixOf, Bool.and_eq_true] at h ⊢
          exact ⟨h.1, ih ds m h.2⟩

theorem containsSubstrAux_nil_needle (l : List Char) : containsSubstrAux [] l = true := by
  cases l <;> simp [containsSubstrAux, List.isPrefixOf]

theorem containsSubstrAux_append_left (n : List Char) :
    ∀ l1 l2 : List Char, containsSubstrAux n l1 = true →
      containsSubstrAux n (l1 ++ l2) = true := by
  intro l1
  induction l1 with
  | nil =>
      intro l2 h
      have hn : n = [] := by
        simpa [containsSubstrAux, List.isEmpty_iff] using h
      subst hn
      exact containsSubstrAux_nil_needle l2
  | cons c rest ih =>
      intro l2 h
      simp only [containsSubstrAux, Bool.or_eq_true] at h
      simp only [List.cons_append, containsSubstrAux, Bool.or_eq_true]
      cases h with
      | inl h =>
          exact Or.inl (by
            have := isPrefixOf_append_right n (c :: rest) l2 h
            simpa using this)
      | inr h => exact Or.inr (ih l2 h)

/-- The Analyst prompt built at line 216 for a delivered packet always
contains the delegation keyword (case-insensitively): the fixed task tag
already matches. -/
theorem delegationMatch_analyst_prompt (p : String) :
    delegationMatch (analyst_prompt_of ⟨"Analyze Data Science Request", p⟩) = true := by
  have hx : (analyst_prompt_of ⟨"Analyze Data Science Request", p⟩).data =
      (("TASK: " ++ "Analyze Data Science Request") ++ ". INPUT: ").data ++ p.data := by
    simp [analyst_prompt_of, data_append]
  have hl : (lowerStr (analyst_prompt_of ⟨"Analyze Data Science Request", p⟩)).data =
      ((("TASK: " ++ "Analyze Data Science Request") ++ ". INPUT: ").data.map Char.toLower)
        ++ (p.data.map Char.toLower) := by
    show (analyst_prompt_of ⟨"Analyze Data Science Request", p⟩).data.map Char.toLower = _
    rw [hx, List.map_append]
  show containsSubstrAux ("data science").data
    (lowerStr (analyst_prompt_of ⟨"Analyze Data Science Request", p⟩)).data = true
  rw [hl]
  exact containsSubstrAux_append_left _ _ _ (by decide)

/-! ### Claim theorems -/

/-- C1 (code bug): the claimed error recovery never happens.  Every
submission halts at `st.rerun()` (line 71) before the backing call is
made, so no error can occur there and no reply `Turn` — error text or
otherwise — is ever appended: the Coordinator transcript gains exactly
the user `Turn` (its assistant turns are unchanged) and the status is
left stuck at `Working`. -/
theorem C1_no_error_turn_ever_appended (s : AppState) (p : String) :
    (submit_handler s p).main_chat_history = s.main_chat_history ++ [userTurn p]
    ∧ ((submit_handler s p).main_chat_history.filter
        (fun m => decide (m.role = Role.assistant))) =
      (s.main_chat_history.filter (fun m => decide (m.role = Role.assistant)))
    ∧ (submit_handler s p).coordinator_status = Status.Working := by
  obtain ⟨hm, _, _, hcs, _⟩ := submit_handler_spec s p
  refine ⟨hm, ?_, hcs⟩
  rw [hm, List.filter_append]
  simp [userTurn]

/-- C2 (code bug): after N submissions the Coordinator transcript
contains exactly the N user `Turn`s — length N, with no assistant turn
at all — not the claimed 2N alternating turns, because the reply append
at line 190 is unreachable past the line-71 halt. -/
theorem C2_transcript_is_user_turns_only (prompts : List String) :
    (run init_session_state prompts).main_chat_history = prompts.map userTurn
    ∧ (run init_session_state prompts).main_chat_history.length = prompts.length
    ∧ ((run init_session_state prompts).main_chat_history.filter
        (fun m => decide (m.role = Role.assistant))) = [] := by
  obtain ⟨h1, _, _, _, _⟩ := run_spec prompts init_session_state rfl
  have hmain : (run init_session_state prompts).main_chat_history =
      prompts.map userTurn := by
    simpa [init_session_state] using h1
  exact ⟨hmain, by rw [hmain]; simp,
    by rw [hmain]; exact map_userTurn_no_assistant prompts⟩

/-- C3: the delegation predicate is a deterministic pure function of the
last user text; the match is the case-insensitive substring test of
line 97 against `"data science"` (matching `"Data Science"`,
`"DATA SCIENCE"`, `"data science tips"`, but not `"datascience"`); a
positive decision yields the `HandoffPacket`, a negative one nothing. -/
theorem C3_maybe_delegate_pure_keyword :
    (∀ t1 t2 : String, t1 = t2 → maybe_delegate t1 = maybe_delegate t2)
    ∧ delegationMatch "Data Science" = true
    ∧ delegationMatch "DATA SCIENCE" = true
    ∧ delegationMatch "data science tips" = true
    ∧ delegationMatch "datascience" = false
    ∧ (∀ t : String, delegationMatch t = true →
        maybe_delegate t = some ⟨"Analyze Data Science Request", t⟩)
    ∧ (∀ t : String, delegationMatch t = false → maybe_delegate t = none) := by
  refine ⟨fun t1 t2 h => by rw [h], by decide, by decide, by decide, by decide, ?_, ?_⟩
  · intro t h; simp [maybe_delegate, h]
  · intro t h; simp [maybe_delegate, h]

/-- Witness for C3 at concrete inputs. -/
theorem C3_maybe_delegate_pure_keyword_witness :
    maybe_delegate "data science tips" =
      some ⟨"Analyze Data Science Request", "data science tips"⟩
    ∧ maybe_delegate "datascience" = none :=
  ⟨C3_maybe_delegate_pure_keyword.2.2.2.2.2.1 "data science tips" (by decide),
   C3_maybe_delegate_pure_keyword.2.2.2.2.2.2 "datascience" (by decide)⟩

/-- C4 (code bug): the claimed store/overwrite/clear lifecycle of
`data_transfer` never occurs.  The store at line 195 is unreachable past
the line-71 halt: the submit handler never writes the slot, and along
any run from the initial state `data_transfer` is permanently `none` —
no packet is ever pending, let alone overwritten or consumed. -/
theorem C4_no_packet_ever_stored (prompts : List String) (s : AppState) (p : String) :
    (run init_session_state prompts).data_transfer = none
    ∧ (submit_handler s p).data_transfer = s.data_transfer := by
  obtain ⟨_, _, _, h4, _⟩ := run_spec prompts init_session_state rfl
  exact ⟨h4, (submit_handler_spec s p).2.2.2.2⟩

/-- C5 (code bug): the claimed delivery deltas are wrong even on a
hypothetical pending packet.  The handler clears the slot and appends
exactly ONE turn to the Analyst transcript (the delegated input,
line 223), then halts inside the Analyst call at line 71: no reply turn
is appended (target gains 1 turn, not 2) and the Coordinator transcript
gains nothing (no mirrored report, with or without error text). -/
theorem C5_handoff_halts_before_reply (s : AppState) (ti : HandoffPacket)
    (h : s.data_transfer = some ti) :
    (handoff_handler s).analyst_chat_history =
      s.analyst_chat_history ++ [delegatedTaskTurn ti]
    ∧ (handoff_handler s).analyst_chat_history.length =
        s.analyst_chat_history.length + 1
    ∧ (handoff_handler s).main_chat_history = s.main_chat_history
    ∧ (handoff_handler s).analyst_status = Status.Working
    ∧ (handoff_handler s).data_transfer = none := by
  obtain ⟨ha, hm, _, has, hdt⟩ := handoff_handler_spec s ti h
  exact ⟨ha, by rw [ha]; simp, hm, has, hdt⟩

/-- Witness for C5 on the hypothetical pending packet. -/
theorem C5_handoff_halts_before_reply_witness :
    samplePendingState.data_transfer =
      some ⟨"Analyze Data Science Request", "What is data science"⟩
    ∧ ((handoff_handler samplePendingState).analyst_chat_history =
        samplePendingState.analyst_chat_history ++
          [delegatedTaskTurn ⟨"Analyze Data Science Request", "What is data science"⟩]
      ∧ (handoff_handler samplePendingState).analyst_chat_history.length =
          samplePendingState.analyst_chat_history.length + 1
      ∧ (handoff_handler samplePendingState).main_chat_history =
          samplePendingState.main_chat_history
      ∧ (handoff_handler samplePendingState).analyst_status = Status.Working
      ∧ (handoff_handler samplePendingState).data_transfer = none) :=
  ⟨by decide,
   C5_handoff_halts_before_reply samplePendingState
     ⟨"Analyze Data Science Request", "What is data science"⟩ (by decide)⟩

/-- C6 (code bug): the claimed state machine is not the program.  Every
submission assigns `Working` (line 70) and halts at line 71; the
post-call statuses `Available`/`Delegated`/`Error` (lines 96-110) and
the `Available` reset (line 245) are dead code.  After any submission
the Coordinator is `Working` and stays there: further reruns change
nothing, so `Working` is effectively terminal. -/
theorem C6_status_stuck_at_working (s : AppState) (p : String) (rest : List String) :
    (submit_handler s p).coordinator_status = Status.Working
    ∧ (run init_session_state (p :: rest)).coordinator_status = Status.Working
    ∧ handoff_handler (run init_session_state (p :: rest)) =
        run init_session_state (p :: rest) := by
  obtain ⟨_, _, _, h4, h5⟩ := run_spec (p :: rest) init_session_state rfl
  refine ⟨(submit_handler_spec s p).2.2.2.1, ?_, handoff_handler_none _ h4⟩
  rw [h5]
  simp

/-- C7 (code bug): a non-matching submission does store no packet and
leaves the Analyst transcript untouched, but the Coordinator transcript
gains exactly ONE `Turn` (the user input), not the claimed two: the
assistant reply of line 190 is never appended because the run halts at
line 71. -/
theorem C7_no_match_gains_one_turn (s : AppState) (p : String)
    (hkw : delegationMatch p = false) (hdt : s.data_transfer = none) :
    (script_step s p).main_chat_history = s.main_chat_history ++ [userTurn p]
    ∧ (script_step s p).main_chat_history.length = s.main_chat_history.length + 1
    ∧ (script_step s p).analyst_chat_history = s.analyst_chat_history
    ∧ (script_step s p).data_transfer = none := by
  obtain ⟨hm, ha, _, _, hdt2⟩ := submit_handler_spec s p
  have hsub : (submit_handler s p).data_transfer = none := by rw [hdt2, hdt]
  have hstep : script_step s p = submit_handler s p := by
    simp [script_step, handoff_handler_none _ hsub]
  rw [hstep]
  exact ⟨hm, by rw [hm]; simp, ha, hsub⟩

/-- Witness for C7 on a concrete non-matching submission. -/
theorem C7_no_match_gains_one_turn_witness :
    delegationMatch "How is the weather today" = false
    ∧ init_session_state.data_transfer = none
    ∧ ((script_step init_session_state "How is the weather today").main_chat_history =
        init_session_state.main_chat_history ++ [userTurn "How is the weather today"]
      ∧ (script_step init_session_state
          "How is the weather today").main_chat_history.length =
          init_session_state.main_chat_history.length + 1
      ∧ (script_step init_session_state "How is the weather today").analyst_chat_history =
          init_session_state.analyst_chat_history
      ∧ (script_step init_session_state "How is the weather today").data_transfer = none) :=
  ⟨by decide, rfl,
   C7_no_match_gains_one_turn init_session_state "How is the weather today"
     (by decide) rfl⟩

/-- C8 (code bug): the claimed hand-off scenario never occurs, on two
independent grounds.  First, the example input
`"What is a Pandas DataFrame?"` does not even satisfy the keyword test
of line 97 (`maybe_delegate` yields nothing for it), contradicting the
substring semantics the spec itself states.  Second, for the example —
and for every input whatsoever — the submission halts at line 71: the
transcript gains only the user turn, the status sticks at `Working`
(never `Delegated`, never back to `Available`), and no packet is ever
stored, so no delivery or tagged report turn can follow. -/
theorem C8_delegation_scenario_never_occurs :
    maybe_delegate "What is a Pandas DataFrame?" = none
    ∧ (script_step init_session_state "What is a Pandas DataFrame?").main_chat_history =
        [userTurn "What is a Pandas DataFrame?"]
    ∧ (script_step init_session_state "What is a Pandas DataFrame?").coordinator_status =
        Status.Working
    ∧ (script_step init_session_state "What is a Pandas DataFrame?").data_transfer = none
    ∧ (∀ (s : AppState) (q : String),
        (submit_handler s q).data_transfer = s.data_transfer
        ∧ (submit_handler s q).coordinator_status = Status.Working) := by
  refine ⟨by decide, by decide, by decide, by decide, fun s q =>
    ⟨(submit_handler_spec s q).2.2.2.2, (submit_handler_spec s q).2.2.2.1⟩⟩

/-- C9 (code bug): the error path the claim describes is unreachable.
The `except` branches (lines 105-110) sit after the line-71 halt, so
even for a keyword-matching text with a failing backing call the
Coordinator status is `Working` — never `Error` — and `data_transfer`
and the Analyst transcript are untouched (the backing call is never
made at all). -/
theorem C9_error_status_unreachable (s : AppState) (p : String)
    (hkw : delegationMatch p = true) :
    (submit_handler s p).coordinator_status = Status.Working
    ∧ (submit_handler s p).data_transfer = s.data_transfer
    ∧ (submit_handler s p).analyst_chat_history = s.analyst_chat_history :=
  ⟨(submit_handler_spec s p).2.2.2.1, (submit_handler_spec s p).2.2.2.2,
   (submit_handler_spec s p).2.1⟩

/-- Witness for C9 on a concrete keyword-matching text. -/
theorem C9_error_status_unreachable_witness :
    delegationMatch "data science question" = true
    ∧ ((submit_handler init_session_state "data science question").coordinator_status =
        Status.Working
      ∧ (submit_handler init_session_state "data science question").data_transfer =
          init_session_state.data_transfer
      ∧ (submit_handler init_session_state "data science question").analyst_chat_history =
          init_session_state.analyst_chat_history) :=
  ⟨by decide,
   C9_error_status_unreachable init_session_state "data science question" (by decide)⟩

/-- C10 (code bug): the claimed guard mechanism never runs.  In the
program the Analyst side is completely inert — along any run from the
initial state its transcript stays empty, its status stays `Available`,
and no packet is ever pending, so no hand-off is ever processed.  The
prompt that line 216 would deliver does always contain the keyword, and
even on a hypothetical pending packet the handler halts at line 71 with
the Analyst at `Working` (never `Delegated`) and the slot cleared — but
because of the halt, not because of the line-97 `agent_key` guard,
which is dead code. -/
theorem C10_analyst_side_inert (prompts : List String) :
    ((run init_session_state prompts).analyst_chat_history = []
      ∧ (run init_session_state prompts).analyst_status = Status.Available
      ∧ (run init_session_state prompts).data_transfer = none)
    ∧ (∀ p : String,
        delegationMatch (analyst_prompt_of ⟨"Analyze Data Science Request", p⟩) = true)
    ∧ (∀ (s : AppState) (ti : HandoffPacket), s.data_transfer = some ti →
        (handoff_handler s).analyst_status = Status.Working
        ∧ (handoff_handler s).data_transfer = none) := by
  obtain ⟨_, h2, h3, h4, _⟩ := run_spec prompts init_session_state rfl
  refine ⟨⟨by simpa [init_session_state] using h2,
      by simpa [init_session_state] using h3, h4⟩,
    delegationMatch_analyst_prompt, fun s ti h =>
      ⟨(handoff_handler_spec s ti h).2.2.2.1, (handoff_handler_spec s ti h).2.2.2.2⟩⟩

/-- Witness for C10 on the hypothetical pending packet. -/
theorem C10_analyst_side_inert_witness :
    samplePendingState.data_transfer =
      some ⟨"Analyze Data Science Request", "What is data science"⟩
    ∧ ((handoff_handler samplePendingState).analyst_status = Status.Working
      ∧ (handoff_handler samplePendingState).data_transfer = none) :=
  ⟨by decide,
   (C10_analyst_side_inert []).2.2 samplePendingState
     ⟨"Analyze Data Science Request", "What is data science"⟩ (by decide)⟩

end App
